import Mathlib

/-
Shallow embedding of the RGB-Light-Voice-Control application (src/main.py).

The program is a Kivy app.  Its observable behaviour relevant to the
specification lives in:
  - the constant tables COLOR_MAP and COMMAND_PATTERNS,
  - SmartLightControlApp.execute_command / send_ir_code / process_speech /
    start_listening / stop_listening / animate_progress /
    listening_timeout_callback / handle_recognition_error,
  - VoiceRecognitionListener.onResults / onError.

Modelling conventions:
  - Python strings are `List Char`.  Python str.lower and re.IGNORECASE are
    modelled by ASCII case folding (all pattern literals are ASCII).
  - The regexes of COMMAND_PATTERNS use only literal characters, an optional
    character or optional literal group, and a trailing capture group of one
    or more word characters.  Each pattern is therefore embedded as its list
    of literal alternatives, in the backtracking preference order of the
    Python `re` engine, and `re.search` is embedded as a leftmost scan that
    tries the alternatives in order at each start position.
  - App state is a record; Kivy Clock callbacks are a pending-callback list;
    IR transmissions are a trace of (frequency, signal) pairs; the status
    label is the last message shown, tagged with its colour.  Button text,
    the info label and Logger calls are pure presentation or input/output
    and carry no state the claims mention, so they are not fields.
  - The platform environment (Android or desktop, IR hardware presence,
    whether the platform transmit call or the recognition callback raises)
    is an `Env` record.  Platform calls the program itself never guards with
    try/except around further state changes (recognizer.destroy, Clock
    cancel, startListening) are modelled as non-raising state updates.
-/

namespace RGBLight

/-- ASCII lower-casing of one character, as Python str.lower acts on ASCII. -/
def asciiLower (c : Char) : Char :=
  if 'A' ≤ c ∧ c ≤ 'Z' then Char.ofNat (c.toNat + 32) else c

/-- ASCII lower-casing of a string; models str.lower and, applied to the
subject, re.IGNORECASE matching of the all-lowercase pattern literals. -/
def strLower (s : List Char) : List Char := s.map asciiLower

/-- Word characters of the regex class backslash-w, restricted to ASCII
(every colour name and every concrete transcript considered is ASCII). -/
def isWordChar (c : Char) : Bool :=
  ('a' ≤ c && c ≤ 'z') || ('A' ≤ c && c ≤ 'Z') || ('0' ≤ c && c ≤ '9') || c = '_'

/-- Whitespace stripped by Python str.strip. -/
def isPySpace (c : Char) : Bool :=
  c = ' ' || c = Char.ofNat 9 || c = Char.ofNat 10 || c = Char.ofNat 13 ||
  c = Char.ofNat 11 || c = Char.ofNat 12

/-- Python str.strip. -/
def pyStrip (s : List Char) : List Char :=
  ((s.dropWhile isPySpace).reverse.dropWhile isPySpace).reverse

/-- The apostrophe character (written by code point). -/
def apos : Char := Char.ofNat 39

/-- COLOR_MAP from src/main.py lines 34-43: colour name to IR pulse list. -/
def COLOR_MAP : List (List Char × List Nat) := [
  ("red".data,    [38000, 9000, 4500, 562, 562, 1687, 562]),
  ("blue".data,   [38000, 9000, 4500, 562, 1687, 562, 562]),
  ("green".data,  [38000, 9000, 4500, 1687, 562, 562, 562]),
  ("white".data,  [38000, 9000, 4500, 562, 562, 562, 1687]),
  ("yellow".data, [38000, 9000, 4500, 1687, 562, 1687, 562]),
  ("purple".data, [38000, 9000, 4500, 562, 1687, 1687, 1687]),
  ("orange".data, [38000, 9000, 4500, 1687, 1687, 562, 562]),
  ("pink".data,   [38000, 9000, 4500, 1687, 562, 562, 1687])]

/-- The hard-coded ON code of execute_command (src/main.py line 341). -/
def ON_IR_CODE : List Nat := [38000, 9000, 4500, 562, 562, 562, 562]

/-- The hard-coded OFF code of execute_command (src/main.py line 347). -/
def OFF_IR_CODE : List Nat := [38000, 9000, 4500, 562, 1687, 1687, 562]

/-- COMMAND_PATTERNS group "on": each regex as its literal alternatives.
The first pattern has an optional apostrophe between daddy and s, so it
expands to the two literals with and without it; the third has an optional
s, expanding likewise; the rest are plain literals. -/
def COMMAND_PATTERNS_on : List (List (List Char)) := [
  [("daddy".data ++ [apos] ++ "s home".data), "daddys home".data],
  ["turn on".data],
  ["lights on".data, "light on".data],
  ["power on".data]]

/-- COMMAND_PATTERNS group "off", expanded like the "on" group. -/
def COMMAND_PATTERNS_off : List (List (List Char)) := [
  ["turn off".data],
  ["lights off".data, "light off".data],
  ["power off".data],
  ["shut off".data]]

/-- COMMAND_PATTERNS group "color": each regex is a literal prefix (with one
optional non-capturing group in the second pattern, so two alternatives in
greedy order) followed by a capture group of one or more word characters. -/
def COMMAND_PATTERNS_color : List (List (List Char)) := [
  ["change to ".data],
  ["set color to ".data, "set to ".data],
  ["make it ".data],
  ["switch to ".data]]

/-- Try the literal alternatives of a colour pattern at one start position:
the first alternative that is a prefix of the suffix and is followed by at
least one word character matches, capturing the maximal word-char run. -/
def tryAltsAt (alts : List (List Char)) (s : List Char) : Option (List Char) :=
  match alts with
  | [] => none
  | a :: rest =>
    if a.isPrefixOf s then
      let capture := (s.drop a.length).takeWhile isWordChar
      if capture.isEmpty then tryAltsAt rest s else some capture
    else tryAltsAt rest s

/-- re.search for a colour pattern: scan start positions left to right and
return the capture of the leftmost match (Python leftmost-match semantics,
alternatives in backtracking order at each position). -/
def reSearchCapture (alts : List (List Char)) : List Char → Option (List Char)
  | [] => tryAltsAt alts []
  | c :: t =>
    match tryAltsAt alts (c :: t) with
    | some cap => some cap
    | none => reSearchCapture alts t

/-- Does `lit` occur as a contiguous substring of the subject (re.search of
a literal pattern). -/
def occursIn (lit : List Char) : List Char → Bool
  | [] => lit.isPrefixOf []
  | c :: t => lit.isPrefixOf (c :: t) || occursIn lit t

/-- re.search for an on/off pattern: some literal alternative occurs as a
contiguous substring of the subject. -/
def matchesPattern (alts : List (List Char)) (s : List Char) : Bool :=
  alts.any (fun lit => occursIn lit s)

/-- The for-loop of execute_command over one group: does any pattern of the
group match the command. -/
def matchesAny (group : List (List (List Char))) (s : List Char) : Bool :=
  group.any (fun alts => matchesPattern alts s)

/-- The for-loop of execute_command over the colour group: the capture of
the first pattern for which re.search finds a match, if any. -/
def firstColorCapture (group : List (List (List Char))) (s : List Char) :
    Option (List Char) :=
  group.findSome? (fun alts => reSearchCapture alts s)

/-- The action text passed to send_ir_code, as a tag (the Python strings
Turning lights ON / Turning lights OFF / Changing to colour). -/
inductive Action where
  | turnOn
  | turnOff
  | changeTo (color : List Char)
deriving DecidableEq

/-- The messages the app can show in the status label, as tags for the
Python format strings. -/
inductive Msg where
  | ready
  | listeningPrompt
  | desktopMode (a : Action)
  | irManagerUnavailable
  | noIrEmitter
  | irSendFailed
  | actionDone (a : Action)
  | colorNotAvailable (color : List Char)
  | notRecognized
  | noSpeechDetected
  | listeningTimedOut
  | recognitionError (code : Nat)
  | desktopVoiceOnly
  | processingError
deriving DecidableEq

/-- The colour the status label text is set to. -/
inductive MsgColor where
  | white
  | green
  | red
deriving DecidableEq

/-- Pending Kivy Clock callbacks. -/
inductive CB where
  | timeout
  | animate
  | stopL
deriving DecidableEq

/-- The platform environment of one run. -/
structure Env where
  platform_android : Bool
  has_ir_manager : Bool
  has_ir_emitter : Bool
  transmit_raises : Bool
  callback_raises : Bool
deriving DecidableEq

/-- Android with working IR hardware and no platform exceptions. -/
def envGood : Env :=
  { platform_android := true, has_ir_manager := true, has_ir_emitter := true,
    transmit_raises := false, callback_raises := false }

/-- Android without the consumer IR service. -/
def envNoIr : Env :=
  { platform_android := true, has_ir_manager := false, has_ir_emitter := false,
    transmit_raises := false, callback_raises := false }

/-- Android where the platform transmit call and the results callback
raise. -/
def envRaises : Env :=
  { platform_android := true, has_ir_manager := true, has_ir_emitter := true,
    transmit_raises := true, callback_raises := true }

/-- The mutable state of SmartLightControlApp, plus the IR transmission
trace and the pending Clock callbacks. -/
structure AppState where
  recognizer : Option Unit
  is_listening : Bool
  listening_timeout : Option Unit
  current_color : List Char
  status : Msg × MsgColor
  progress_value : Nat
  progress_visible : Bool
  transmitted : List (Nat × List Nat)
  scheduled : List CB
deriving DecidableEq

/-- The state after SmartLightControlApp.__init__ and build. -/
def initState : AppState :=
  { recognizer := none, is_listening := false, listening_timeout := none,
    current_color := "white".data, status := (Msg.ready, MsgColor.white),
    progress_value := 0, progress_visible := false,
    transmitted := [], scheduled := [] }

/-- show_status: set the status label text, in white. -/
def show_status (s : AppState) (m : Msg) : AppState :=
  { s with status := (m, MsgColor.white) }

/-- show_success: set the status label text, in green. -/
def show_success (s : AppState) (m : Msg) : AppState :=
  { s with status := (m, MsgColor.green) }

/-- show_error: set the status label text, in red (and log). -/
def show_error (s : AppState) (m : Msg) : AppState :=
  { s with status := (m, MsgColor.red) }

/-- send_ir_code (src/main.py lines 371-398).  On desktop it only shows a
status message; on Android it errors (message only) when the IR manager or
emitter is missing; otherwise it takes element 0 of the pattern as the
transmit frequency and the rest as the signal (an empty pattern would raise
IndexError, landing in the same except branch as a transmit failure).  All
exceptions are caught, the except branch only logs and shows a message. -/
def send_ir_code (env : Env) (s : AppState) (pattern : List Nat) (a : Action) :
    AppState :=
  if env.platform_android = false then show_status s (Msg.desktopMode a)
  else if env.has_ir_manager = false then show_error s Msg.irManagerUnavailable
  else if env.has_ir_emitter = false then show_error s Msg.noIrEmitter
  else
    match pattern with
    | [] => show_error s Msg.irSendFailed
    | f :: sig =>
      if env.transmit_raises then show_error s Msg.irSendFailed
      else show_success
        { s with transmitted := s.transmitted ++ [(f, sig)] } (Msg.actionDone a)

/-- execute_command (src/main.py lines 335-369): try the "on" patterns, then
the "off" patterns, then the colour patterns; for the first colour pattern
that matches, look the captured word up in COLOR_MAP, and either set
current_color and transmit, or show a message and return False.  update of
the info label between the assignment and the transmission is presentation
only.  The boolean is the Python return value. -/
def execute_command (env : Env) (s : AppState) (command : List Char) :
    AppState × Bool :=
  if matchesAny COMMAND_PATTERNS_on (strLower command) then
    (send_ir_code env s ON_IR_CODE Action.turnOn, true)
  else if matchesAny COMMAND_PATTERNS_off (strLower command) then
    (send_ir_code env s OFF_IR_CODE Action.turnOff, true)
  else
    match firstColorCapture COMMAND_PATTERNS_color (strLower command) with
    | some color =>
      match List.lookup color COLOR_MAP with
      | some code =>
        (send_ir_code env { s with current_color := color } code
          (Action.changeTo color), true)
      | none => (show_status s (Msg.colorNotAvailable color), false)
    | none => (s, false)

/-- stop_listening (src/main.py lines 274-291): destroy the recognizer,
cancel the pending timeout callback, clear the listening flag, reset the
button and hide the progress bar. -/
def stop_listening (s : AppState) : AppState :=
  let sched := if s.listening_timeout.isSome
    then s.scheduled.erase CB.timeout else s.scheduled
  { s with recognizer := none, listening_timeout := none,
           is_listening := false, progress_visible := false,
           scheduled := sched }

/-- animate_progress (src/main.py lines 298-302): while listening, advance
the progress bar and reschedule itself. -/
def animate_progress (s : AppState) : AppState :=
  if s.is_listening then
    { s with progress_value := (s.progress_value + 10) % 100,
             scheduled := s.scheduled ++ [CB.animate] }
  else s

/-- start_listening (src/main.py lines 236-272): on desktop only a status
message; on Android, set the listening flag, show the prompt and progress
bar, run one animation step (which reschedules itself), create the
recognizer and start it, and schedule the 10-second timeout. -/
def start_listening (env : Env) (s : AppState) : AppState :=
  if env.platform_android = false then show_status s Msg.desktopVoiceOnly
  else
    let s1 := show_status
      { s with is_listening := true, progress_visible := true }
      Msg.listeningPrompt
    let s2 := animate_progress s1
    let s3 := { s2 with recognizer := some () }
    { s3 with listening_timeout := some (),
              scheduled := s3.scheduled ++ [CB.timeout] }

/-- toggle_listening (src/main.py lines 229-234). -/
def toggle_listening (env : Env) (s : AppState) : AppState :=
  if s.is_listening then stop_listening s else start_listening env s

/-- listening_timeout_callback (src/main.py lines 293-296). -/
def listening_timeout_callback (s : AppState) : AppState :=
  stop_listening (show_status s Msg.listeningTimedOut)

/-- handle_recognition_error (src/main.py lines 400-403): show the error
message and defer stop_listening by one second. -/
def handle_recognition_error (s : AppState) (m : Msg) : AppState :=
  let s1 := show_error s m
  { s1 with scheduled := s1.scheduled ++ [CB.stopL] }

/-- VoiceRecognitionListener.onError (src/main.py lines 84-99): map the
error code to a message (the code is carried in the tag) and invoke the
error callback, which is handle_recognition_error. -/
def onError (s : AppState) (code : Nat) : AppState :=
  handle_recognition_error s (Msg.recognitionError code)

/-- The loop of process_speech over the recognition alternatives: each is
lower-cased and stripped, then passed to execute_command until one
succeeds. -/
def run_commands (env : Env) (s : AppState) : List (List Char) →
    AppState × Bool
  | [] => (s, false)
  | m :: ms =>
    match execute_command env s (pyStrip (strLower m)) with
    | (s1, true) => (s1, true)
    | (s1, false) => run_commands env s1 ms

/-- The try block of process_speech (src/main.py lines 304-331).  `results`
is the string array list from the results bundle, none when it is null.
The no-speech branch stops listening at once; otherwise every alternative
is tried and a failure shows a hint message. -/
def process_speech_try (env : Env) (s : AppState)
    (results : Option (List (List Char))) : AppState :=
  if env.platform_android = false then s
  else
    match results with
    | none => stop_listening (show_status s Msg.noSpeechDetected)
    | some ms =>
      if ms.isEmpty then stop_listening (show_status s Msg.noSpeechDetected)
      else
        match run_commands env s ms with
        | (s1, true) => s1
        | (s1, false) => show_status s1 Msg.notRecognized

/-- process_speech (src/main.py lines 304-333): the try block, then the
finally block, which always defers stop_listening by one second, also
around the early desktop return. -/
def process_speech (env : Env) (s : AppState)
    (results : Option (List (List Char))) : AppState :=
  let body := process_speech_try env s results
  { body with scheduled := body.scheduled ++ [CB.stopL] }

/-- VoiceRecognitionListener.onResults (src/main.py lines 76-82): run the
results callback (process_speech); if it raises, the except branch invokes
the error callback with a processing-error message and a deferred stop.
The oracle `callback_raises` models the callback raising at entry. -/
def onResults (env : Env) (s : AppState)
    (results : Option (List (List Char))) : AppState :=
  if env.callback_raises then handle_recognition_error s Msg.processingError
  else process_speech env s results

/-- The invariant of claim group C10: current_color is a key of COLOR_MAP. -/
def colorInv (s : AppState) : Prop :=
  (List.lookup s.current_color COLOR_MAP).isSome = true

/- ### Helper lemmas (shared) -/

theorem getLast?_append_single {α : Type} (l : List α) (a : α) :
    (l ++ [a]).getLast? = some a := by
  induction l with
  | nil => rfl
  | cons x xs ih =>
    cases xs with
    | nil => rfl
    | cons y ys => simpa using ih

theorem send_ir_code_is_listening (env : Env) (s : AppState)
    (p : List Nat) (a : Action) :
    (send_ir_code env s p a).is_listening = s.is_listening := by
  unfold send_ir_code show_status show_error show_success
  repeat' split
  all_goals rfl

theorem send_ir_code_current_color (env : Env) (s : AppState)
    (p : List Nat) (a : Action) :
    (send_ir_code env s p a).current_color = s.current_color := by
  unfold send_ir_code show_status show_error show_success
  repeat' split
  all_goals rfl

theorem send_ir_code_scheduled (env : Env) (s : AppState)
    (p : List Nat) (a : Action) :
    (send_ir_code env s p a).scheduled = s.scheduled := by
  unfold send_ir_code show_status show_error show_success
  repeat' split
  all_goals rfl

theorem send_ir_code_transmitted_cases (env : Env) (s : AppState)
    (p : List Nat) (a : Action) :
    (send_ir_code env s p a).transmitted = s.transmitted ∨
    (send_ir_code env s p a).transmitted =
      s.transmitted ++ [(p.headD 0, p.tail)] := by
  unfold send_ir_code show_status show_error show_success
  repeat' split
  all_goals simp

theorem send_ir_code_good (env : Env) (s : AppState) (f : Nat)
    (sig : List Nat) (a : Action)
    (ha : env.platform_android = true) (hm : env.has_ir_manager = true)
    (he : env.has_ir_emitter = true) (ht : env.transmit_raises = false) :
    send_ir_code env s (f :: sig) a =
      show_success { s with transmitted := s.transmitted ++ [(f, sig)] }
        (Msg.actionDone a) := by
  simp [send_ir_code, ha, hm, he, ht]

theorem lookup_colorMap_eq {c : List Char} {code : List Nat}
    (h : List.lookup c COLOR_MAP = some code) :
    ∃ sig, code = 38000 :: sig := by
  unfold COLOR_MAP at h
  simp only [List.lookup] at h
  repeat' split at h
  all_goals simp_all
  all_goals exact ⟨_, h.symm⟩

theorem mem_append_carrier {t : List (Nat × List Nat)} {e : Nat × List Nat}
    {x : List Nat} (h : e ∈ t ++ [(38000, x)]) : e ∈ t ∨ e.1 = 38000 := by
  rcases List.mem_append.mp h with h1 | h1
  · exact Or.inl h1
  · simp only [List.mem_singleton] at h1
    right
    rw [h1]

theorem execute_command_transmitted_shape (env : Env) (s : AppState)
    (cmd : List Char) :
    (execute_command env s cmd).1.transmitted = s.transmitted ∨
    ∃ x, (execute_command env s cmd).1.transmitted =
      s.transmitted ++ [(38000, x)] := by
  unfold execute_command
  split
  · rcases send_ir_code_transmitted_cases env s ON_IR_CODE Action.turnOn
      with hc | hc
    · exact Or.inl hc
    · exact Or.inr ⟨_, hc⟩
  · split
    · rcases send_ir_code_transmitted_cases env s OFF_IR_CODE Action.turnOff
        with hc | hc
      · exact Or.inl hc
      · exact Or.inr ⟨_, hc⟩
    · split
      · rename_i color heq1
        split
        · rename_i code hmap
          obtain ⟨sig, rfl⟩ := lookup_colorMap_eq hmap
          rcases send_ir_code_transmitted_cases env
              { s with current_color := color } (38000 :: sig)
              (Action.changeTo color) with hc | hc
          · exact Or.inl hc
          · exact Or.inr ⟨sig, hc⟩
        · exact Or.inl rfl
      · exact Or.inl rfl

theorem colorInv_congr {s t : AppState} (h : t.current_color = s.current_color)
    (hs : colorInv s) : colorInv t := by
  unfold colorInv at hs ⊢
  rw [h]
  exact hs

theorem execute_command_is_listening (env : Env) (s : AppState)
    (cmd : List Char) :
    (execute_command env s cmd).1.is_listening = s.is_listening := by
  unfold execute_command
  repeat' split
  all_goals simp [send_ir_code_is_listening, show_status]

theorem execute_command_colorInv (env : Env) (s : AppState) (cmd : List Char)
    (h : colorInv s) : colorInv (execute_command env s cmd).1 := by
  unfold execute_command
  split
  · exact colorInv_congr (send_ir_code_current_color _ _ _ _) h
  · split
    · exact colorInv_congr (send_ir_code_current_color _ _ _ _) h
    · split
      · split
        · rename_i color heq1 code hmap
          refine colorInv_congr (send_ir_code_current_color _ _ _ _) ?_
          simp [colorInv, hmap]
        · exact colorInv_congr rfl h
      · exact h

theorem run_commands_is_listening (env : Env) (ms : List (List Char)) :
    ∀ s : AppState, (run_commands env s ms).1.is_listening = s.is_listening := by
  induction ms with
  | nil => intro s; rfl
  | cons m rest ih =>
    intro s
    unfold run_commands
    split
    · next s1 heq =>
        have h1 := execute_command_is_listening env s (pyStrip (strLower m))
        rw [heq] at h1
        exact h1
    · next s1 heq =>
        have h1 := execute_command_is_listening env s (pyStrip (strLower m))
        rw [heq] at h1
        exact (ih s1).trans h1

theorem run_commands_colorInv (env : Env) (ms : List (List Char)) :
    ∀ s : AppState, colorInv s → colorInv (run_commands env s ms).1 := by
  induction ms with
  | nil => intro s h; exact h
  | cons m rest ih =>
    intro s h
    unfold run_commands
    split
    · next s1 heq =>
        have h1 := execute_command_colorInv env s (pyStrip (strLower m)) h
        rw [heq] at h1
        exact h1
    · next s1 heq =>
        have h1 := execute_command_colorInv env s (pyStrip (strLower m)) h
        rw [heq] at h1
        exact ih s1 h1

theorem stop_listening_current_color (s : AppState) :
    (stop_listening s).current_color = s.current_color := rfl

theorem process_speech_try_is_listening (env : Env) (s : AppState)
    (r : Option (List (List Char))) :
    (process_speech_try env s r).is_listening = true →
      s.is_listening = true := by
  unfold process_speech_try
  split
  · exact fun h => h
  · split
    · intro h
      simp [stop_listening] at h
    · rename_i ms
      split
      · intro h
        simp [stop_listening] at h
      · split
        · rename_i s1 heq
          intro h1
          have h2 := run_commands_is_listening env ms s
          rw [heq] at h2
          exact h2.symm.trans h1
        · rename_i s1 heq
          intro h1
          have h2 := run_commands_is_listening env ms s
          rw [heq] at h2
          exact h2.symm.trans h1

theorem process_speech_try_colorInv (env : Env) (s : AppState)
    (r : Option (List (List Char))) (h : colorInv s) :
    colorInv (process_speech_try env s r) := by
  unfold process_speech_try
  split
  · exact h
  · split
    · exact colorInv_congr rfl h
    · rename_i ms
      split
      · exact colorInv_congr rfl h
      · split
        · rename_i s1 heq
          have h1 := run_commands_colorInv env ms s h
          rw [heq] at h1
          exact h1
        · rename_i s1 heq
          have h1 := run_commands_colorInv env ms s h
          rw [heq] at h1
          exact colorInv_congr rfl h1

theorem start_listening_current_color (env : Env) (s : AppState) :
    (start_listening env s).current_color = s.current_color := by
  unfold start_listening animate_progress show_status
  repeat' split
  all_goals rfl

theorem animate_progress_current_color (s : AppState) :
    (animate_progress s).current_color = s.current_color := by
  unfold animate_progress
  split
  all_goals rfl

/- ### Claim theorems -/

/-- C1: the command classifier is exactly regex matching against the fixed
vocabulary plus a dictionary lookup.  execute_command returns True only if
the lowercased transcript matches a pattern of the on group, of the off
group, or of the color group with the captured word a key of COLOR_MAP;
for a transcript matching no pattern of any group it returns False and
transmits no IR code. -/
theorem execute_command_is_regex_classifier (env : Env) (s : AppState)
    (cmd : List Char) :
    ((execute_command env s cmd).2 = true →
      matchesAny COMMAND_PATTERNS_on (strLower cmd) = true ∨
      matchesAny COMMAND_PATTERNS_off (strLower cmd) = true ∨
      ∃ c, firstColorCapture COMMAND_PATTERNS_color (strLower cmd) = some c ∧
        (List.lookup c COLOR_MAP).isSome = true) ∧
    (matchesAny COMMAND_PATTERNS_on (strLower cmd) = false →
     matchesAny COMMAND_PATTERNS_off (strLower cmd) = false →
     firstColorCapture COMMAND_PATTERNS_color (strLower cmd) = none →
     (execute_command env s cmd).2 = false ∧
     (execute_command env s cmd).1.transmitted = s.transmitted) := by
  constructor
  · intro h
    cases h1 : matchesAny COMMAND_PATTERNS_on (strLower cmd) with
    | true => exact Or.inl rfl
    | false =>
      cases h2 : matchesAny COMMAND_PATTERNS_off (strLower cmd) with
      | true => exact Or.inr (Or.inl rfl)
      | false =>
        refine Or.inr (Or.inr ?_)
        unfold execute_command at h
        cases h3 : firstColorCapture COMMAND_PATTERNS_color (strLower cmd) with
        | none => simp [h1, h2, h3] at h
        | some c =>
          cases h4 : List.lookup c COLOR_MAP with
          | none => simp [h1, h2, h3, h4] at h
          | some code => exact ⟨c, rfl, by rw [h4]; rfl⟩
  · intro h1 h2 h3
    constructor <;> simp [execute_command, h1, h2, h3]

/-- Witness for C1: a transcript matched by the on group makes
execute_command return True, and a transcript matching nothing makes it
return False with no transmission. -/
theorem execute_command_is_regex_classifier_witness :
    (matchesAny COMMAND_PATTERNS_on (strLower "turn on".data) = true ∨
     matchesAny COMMAND_PATTERNS_off (strLower "turn on".data) = true ∨
     ∃ c, firstColorCapture COMMAND_PATTERNS_color
         (strLower "turn on".data) = some c ∧
       (List.lookup c COLOR_MAP).isSome = true) ∧
    ((execute_command envGood initState "hello".data).2 = false ∧
     (execute_command envGood initState "hello".data).1.transmitted =
       initState.transmitted) :=
  ⟨(execute_command_is_regex_classifier envGood initState "turn on".data).1
      (by decide),
   (execute_command_is_regex_classifier envGood initState "hello".data).2
      (by decide) (by decide) (by decide)⟩

/-- C2: a colour transcript whose captured word is a key of COLOR_MAP makes
execute_command look the IR pattern up, set current_color to that word,
pass exactly that list on (transmitting element 0 as frequency and the rest
as the signal) and return True. -/
theorem color_command_sets_color_and_transmits (env : Env) (s : AppState)
    (cmd c : List Char) (f : Nat) (sig : List Nat)
    (hon : matchesAny COMMAND_PATTERNS_on (strLower cmd) = false)
    (hoff : matchesAny COMMAND_PATTERNS_off (strLower cmd) = false)
    (hcap : firstColorCapture COMMAND_PATTERNS_color (strLower cmd) = some c)
    (hmap : List.lookup c COLOR_MAP = some (f :: sig))
    (ha : env.platform_android = true) (hm : env.has_ir_manager = true)
    (he : env.has_ir_emitter = true) (ht : env.transmit_raises = false) :
    execute_command env s cmd =
      (show_success
        { s with current_color := c,
                 transmitted := s.transmitted ++ [(f, sig)] }
        (Msg.actionDone (Action.changeTo c)), true) := by
  have hgood := send_ir_code_good env { s with current_color := c } f sig
    (Action.changeTo c) ha hm he ht
  simp [execute_command, hon, hoff, hcap, hmap, hgood]

/-- Witness for C2: the transcript change to red transmits the red code,
sets current_color to red and returns True. -/
theorem color_command_sets_color_and_transmits_witness :
    execute_command envGood initState "change to red".data =
      (show_success
        { initState with
            current_color := "red".data,
            transmitted := initState.transmitted ++
              [(38000, [9000, 4500, 562, 562, 1687, 562])] }
        (Msg.actionDone (Action.changeTo "red".data)), true) :=
  color_command_sets_color_and_transmits envGood initState
    "change to red".data "red".data 38000 [9000, 4500, 562, 562, 1687, 562]
    (by decide) (by decide) (by decide) (by decide) rfl rfl rfl rfl

/-- C8: the groups are tried in the order on, off, color; a transcript that
also matches the on group is handled by the on group alone, transmitting
the ON code and returning True. -/
theorem on_group_priority (env : Env) (s : AppState) (cmd : List Char)
    (hon : matchesAny COMMAND_PATTERNS_on (strLower cmd) = true)
    (_hother : matchesAny COMMAND_PATTERNS_off (strLower cmd) = true ∨
      ∃ c, firstColorCapture COMMAND_PATTERNS_color (strLower cmd) = some c) :
    execute_command env s cmd =
      (send_ir_code env s ON_IR_CODE Action.turnOn, true) := by
  simp [execute_command, hon]

/-- Witness for C8: a transcript matching both an on and an off pattern is
executed as ON. -/
theorem on_group_priority_witness :
    execute_command envGood initState "turn on and turn off".data =
      (send_ir_code envGood initState ON_IR_CODE Action.turnOn, true) :=
  on_group_priority envGood initState "turn on and turn off".data
    (by decide) (Or.inl (by decide))

/-- C9: when the first matching colour pattern captures a word that is not
a key of COLOR_MAP, execute_command returns False at once with only a
status message: nothing is transmitted, current_color is unchanged, and
the remaining colour patterns are not tried. -/
theorem invalid_color_rejected (env : Env) (s : AppState) (cmd c : List Char)
    (hon : matchesAny COMMAND_PATTERNS_on (strLower cmd) = false)
    (hoff : matchesAny COMMAND_PATTERNS_off (strLower cmd) = false)
    (hcap : firstColorCapture COMMAND_PATTERNS_color (strLower cmd) = some c)
    (hmap : List.lookup c COLOR_MAP = none) :
    execute_command env s cmd =
      (show_status s (Msg.colorNotAvailable c), false) ∧
    (execute_command env s cmd).1.transmitted = s.transmitted ∧
    (execute_command env s cmd).1.current_color = s.current_color := by
  have h1 : execute_command env s cmd =
      (show_status s (Msg.colorNotAvailable c), false) := by
    simp [execute_command, hon, hoff, hcap, hmap]
  refine ⟨h1, ?_, ?_⟩
  · rw [h1]
    rfl
  · rw [h1]
    rfl

/-- Witness for C9: in the transcript change to the lights and make it red,
the first colour pattern captures the invalid word the, so the command is
rejected even though the later make-it pattern would capture the valid
colour red. -/
theorem invalid_color_rejected_witness :
    execute_command envGood initState
        "change to the lights and make it red".data =
      (show_status initState (Msg.colorNotAvailable "the".data), false) ∧
    reSearchCapture ["make it ".data]
        (strLower "change to the lights and make it red".data) =
      some "red".data ∧
    (List.lookup "red".data COLOR_MAP).isSome = true :=
  ⟨(invalid_color_rejected envGood initState
      "change to the lights and make it red".data "the".data
      (by decide) (by decide) (by decide) (by decide)).1,
   by decide, by decide⟩

/-- C3: every IR pattern the program ever passes to send_ir_code (the
COLOR_MAP values and the two hard-coded ON/OFF lists) is a non-empty
constant starting with the carrier frequency 38000; send_ir_code always
transmits element 0 as the frequency and the rest as the signal, so every
entry the program ever appends to the transmission trace has frequency
38000. -/
theorem ir_patterns_carry_frequency (env : Env) (s : AppState) :
    (∀ p ∈ COLOR_MAP, p.2.headD 0 = 38000 ∧ p.2 ≠ []) ∧
    (ON_IR_CODE.headD 0 = 38000 ∧ ON_IR_CODE ≠ []) ∧
    (OFF_IR_CODE.headD 0 = 38000 ∧ OFF_IR_CODE ≠ []) ∧
    (∀ (f : Nat) (sig : List Nat) (a : Action),
      env.platform_android = true → env.has_ir_manager = true →
      env.has_ir_emitter = true → env.transmit_raises = false →
      (send_ir_code env s (f :: sig) a).transmitted =
        s.transmitted ++ [(f, sig)]) ∧
    (∀ (cmd : List Char) (e : Nat × List Nat),
      e ∈ (execute_command env s cmd).1.transmitted →
      e ∈ s.transmitted ∨ e.1 = 38000) := by
  refine ⟨by decide, by decide, by decide, ?_, ?_⟩
  · intro f sig a ha hm he ht
    rw [send_ir_code_good env s f sig a ha hm he ht]
    rfl
  · intro cmd e he
    rcases execute_command_transmitted_shape env s cmd with hc | ⟨x, hc⟩
    · rw [hc] at he
      exact Or.inl he
    · rw [hc] at he
      exact mem_append_carrier he

/-- Witness for C3: transmitting the red code appends exactly the red
entry, and the single entry produced by the transcript turn on has
frequency 38000. -/
theorem ir_patterns_carry_frequency_witness :
    (send_ir_code envGood initState
        (38000 :: [9000, 4500, 562, 562, 1687, 562]) Action.turnOn).transmitted
      = initState.transmitted ++ [(38000, [9000, 4500, 562, 562, 1687, 562])] ∧
    ((38000, [9000, 4500, 562, 562, 562, 562]) ∈
        (execute_command envGood initState "turn on".data).1.transmitted →
      (38000, [9000, 4500, 562, 562, 562, 562]) ∈ initState.transmitted ∨
      (38000, ([9000, 4500, 562, 562, 562, 562] : List Nat)).1 = 38000) :=
  ⟨(ir_patterns_carry_frequency envGood initState).2.2.2.1 38000
      [9000, 4500, 562, 562, 1687, 562] Action.turnOn rfl rfl rfl rfl,
   (ir_patterns_carry_frequency envGood initState).2.2.2.2 "turn on".data
      (38000, [9000, 4500, 562, 562, 562, 562])⟩

/-- C4: on every modelled failure the only action is a status-label message
(plus logging) and, for recognition failures, a deferred stop of the
listening session: the error callback and a raising results callback only
set the status and schedule the stop; send_ir_code with a missing manager,
missing emitter or raising transmit call returns normally with only the
status changed and nothing transmitted; execute_command returns False
without transmitting, without changing the colour, the listening flag or
the schedule. -/
theorem failures_only_message_and_stop (env : Env) (s : AppState) :
    (∀ code : Nat, onError s code =
      { s with status := (Msg.recognitionError code, MsgColor.red),
               scheduled := s.scheduled ++ [CB.stopL] }) ∧
    (env.callback_raises = true → ∀ r, onResults env s r =
      { s with status := (Msg.processingError, MsgColor.red),
               scheduled := s.scheduled ++ [CB.stopL] }) ∧
    (∀ (p : List Nat) (a : Action), env.platform_android = true →
      env.has_ir_manager = false →
      send_ir_code env s p a =
        { s with status := (Msg.irManagerUnavailable, MsgColor.red) }) ∧
    (∀ (p : List Nat) (a : Action), env.platform_android = true →
      env.has_ir_manager = true → env.has_ir_emitter = false →
      send_ir_code env s p a =
        { s with status := (Msg.noIrEmitter, MsgColor.red) }) ∧
    (∀ (p : List Nat) (a : Action), env.platform_android = true →
      env.has_ir_manager = true → env.has_ir_emitter = true →
      env.transmit_raises = true →
      send_ir_code env s p a =
        { s with status := (Msg.irSendFailed, MsgColor.red) }) ∧
    (∀ cmd : List Char, (execute_command env s cmd).2 = false →
      (execute_command env s cmd).1.transmitted = s.transmitted ∧
      (execute_command env s cmd).1.current_color = s.current_color ∧
      (execute_command env s cmd).1.is_listening = s.is_listening ∧
      (execute_command env s cmd).1.scheduled = s.scheduled) := by
  refine ⟨?_, ?_, ?_, ?_, ?_, ?_⟩
  · intro code
    rfl
  · intro hcb r
    simp [onResults, hcb, handle_recognition_error, show_error]
  · intro p a ha hm
    simp [send_ir_code, ha, hm, show_error]
  · intro p a ha hm he
    simp [send_ir_code, ha, hm, he, show_error]
  · intro p a ha hm he ht
    cases p <;> simp [send_ir_code, ha, hm, he, ht, show_error]
  · intro cmd h
    cases h1 : matchesAny COMMAND_PATTERNS_on (strLower cmd) with
    | true => simp [execute_command, h1] at h
    | false =>
      cases h2 : matchesAny COMMAND_PATTERNS_off (strLower cmd) with
      | true => simp [execute_command, h1, h2] at h
      | false =>
        cases h3 : firstColorCapture COMMAND_PATTERNS_color (strLower cmd) with
        | none => simp [execute_command, h1, h2, h3, show_status]
        | some c =>
          cases h4 : List.lookup c COLOR_MAP with
          | none => simp [execute_command, h1, h2, h3, h4, show_status]
          | some code => simp [execute_command, h1, h2, h3, h4] at h

/-- Witness for C4: concrete failing environments for each failure path. -/
theorem failures_only_message_and_stop_witness :
    (onError initState 7 =
      { initState with status := (Msg.recognitionError 7, MsgColor.red),
                       scheduled := initState.scheduled ++ [CB.stopL] }) ∧
    (onResults envRaises initState none =
      { initState with status := (Msg.processingError, MsgColor.red),
                       scheduled := initState.scheduled ++ [CB.stopL] }) ∧
    (send_ir_code envNoIr initState ON_IR_CODE Action.turnOn =
      { initState with
          status := (Msg.irManagerUnavailable, MsgColor.red) }) ∧
    (send_ir_code envRaises initState ON_IR_CODE Action.turnOn =
      { initState with status := (Msg.irSendFailed, MsgColor.red) }) ∧
    ((execute_command envGood initState "hello".data).1.transmitted =
      initState.transmitted ∧
     (execute_command envGood initState "hello".data).1.current_color =
      initState.current_color ∧
     (execute_command envGood initState "hello".data).1.is_listening =
      initState.is_listening ∧
     (execute_command envGood initState "hello".data).1.scheduled =
      initState.scheduled) :=
  ⟨(failures_only_message_and_stop envGood initState).1 7,
   (failures_only_message_and_stop envRaises initState).2.1 rfl none,
   (failures_only_message_and_stop envNoIr initState).2.2.1 ON_IR_CODE
      Action.turnOn rfl rfl,
   (failures_only_message_and_stop envRaises initState).2.2.2.2.1 ON_IR_CODE
      Action.turnOn rfl rfl rfl rfl,
   (failures_only_message_and_stop envGood initState).2.2.2.2.2
      "hello".data (by decide)⟩

/-- C5: transcript processing is linear.  process_speech always appends the
deferred stop as the last scheduled callback, after the classification and
transmission work of its try block; and execute_command changes the
transmission trace only when the classification succeeded, a colour
transmission moreover only after its COLOR_MAP lookup succeeded, appending
exactly the looked-up code and setting current_color to the captured
word. -/
theorem processing_is_linear (env : Env) (s : AppState) :
    (∀ r, (process_speech env s r).scheduled =
      (process_speech_try env s r).scheduled ++ [CB.stopL]) ∧
    (∀ r, ((process_speech env s r).scheduled).getLast? = some CB.stopL) ∧
    (∀ cmd : List Char,
      (execute_command env s cmd).1.transmitted ≠ s.transmitted →
      matchesAny COMMAND_PATTERNS_on (strLower cmd) = true ∨
      matchesAny COMMAND_PATTERNS_off (strLower cmd) = true ∨
      ∃ c code,
        firstColorCapture COMMAND_PATTERNS_color (strLower cmd) = some c ∧
        List.lookup c COLOR_MAP = some code ∧
        (execute_command env s cmd).1.transmitted =
          s.transmitted ++ [(code.headD 0, code.tail)] ∧
        (execute_command env s cmd).1.current_color = c) := by
  refine ⟨fun r => rfl, fun r => getLast?_append_single _ _, ?_⟩
  intro cmd hne
  cases h1 : matchesAny COMMAND_PATTERNS_on (strLower cmd) with
  | true => exact Or.inl rfl
  | false =>
    cases h2 : matchesAny COMMAND_PATTERNS_off (strLower cmd) with
    | true => exact Or.inr (Or.inl rfl)
    | false =>
      cases h3 : firstColorCapture COMMAND_PATTERNS_color (strLower cmd) with
      | none =>
        exfalso
        apply hne
        simp [execute_command, h1, h2, h3]
      | some c =>
        cases h4 : List.lookup c COLOR_MAP with
        | none =>
          exfalso
          apply hne
          simp [execute_command, h1, h2, h3, h4, show_status]
        | some code =>
          have hexec : execute_command env s cmd =
              (send_ir_code env { s with current_color := c } code
                (Action.changeTo c), true) := by
            simp [execute_command, h1, h2, h3, h4]
          rw [hexec] at hne
          refine Or.inr (Or.inr ⟨c, code, rfl, h4, ?_, ?_⟩)
          · rw [hexec]
            rcases send_ir_code_transmitted_cases env
                { s with current_color := c } code (Action.changeTo c)
              with hc | hc
            · exact absurd hc hne
            · exact hc
          · rw [hexec]
            exact send_ir_code_current_color _ _ _ _

/-- Witness for C5: the deferred stop is the last scheduled callback after
processing, and the transcript turn on changes the trace only through its
successful classification. -/
theorem processing_is_linear_witness :
    ((process_speech envGood initState none).scheduled).getLast? =
      some CB.stopL ∧
    (matchesAny COMMAND_PATTERNS_on (strLower "turn on".data) = true ∨
     matchesAny COMMAND_PATTERNS_off (strLower "turn on".data) = true ∨
     ∃ c code,
       firstColorCapture COMMAND_PATTERNS_color (strLower "turn on".data) =
         some c ∧
       List.lookup c COLOR_MAP = some code ∧
       (execute_command envGood initState "turn on".data).1.transmitted =
         initState.transmitted ++ [(code.headD 0, code.tail)] ∧
       (execute_command envGood initState "turn on".data).1.current_color =
         c) :=
  ⟨(processing_is_linear envGood initState).2.1 none,
   (processing_is_linear envGood initState).2.2 "turn on".data (by decide)⟩

/-- C6 counterexample: already right after start_listening more than one
timer callback is scheduled at once, so the claim that at no point more
than one timer callback is scheduled or active is false on the code. -/
theorem start_listening_schedules_two_timers :
    1 < (start_listening envGood initState).scheduled.length := by decide

/-- C6 amended: on Android, start_listening leaves exactly two timer
callbacks scheduled at once, the progress-animation tick and the
10-second listening timeout, beside the recognizer callback. -/
theorem start_listening_schedules_animation_and_timeout (env : Env)
    (s : AppState) (ha : env.platform_android = true) :
    (start_listening env s).scheduled =
      s.scheduled ++ [CB.animate, CB.timeout] ∧
    (start_listening env s).is_listening = true ∧
    (start_listening env s).listening_timeout.isSome = true := by
  refine ⟨?_, ?_, ?_⟩ <;>
    simp [start_listening, ha, animate_progress, show_status]

/-- Witness for the amended C6 at the initial state. -/
theorem start_listening_schedules_animation_and_timeout_witness :
    (start_listening envGood initState).scheduled =
      initState.scheduled ++ [CB.animate, CB.timeout] ∧
    (start_listening envGood initState).is_listening = true ∧
    (start_listening envGood initState).listening_timeout.isSome = true :=
  start_listening_schedules_animation_and_timeout envGood initState rfl

/-- C7: stop_listening always leaves recognizer = none,
listening_timeout = none and is_listening = false, from any state; and
start_listening is the only operation that sets is_listening to true:
every other modelled operation preserves or clears the flag, and
toggle_listening sets it only by delegating to start_listening. -/
theorem session_lifecycle_start_stop (env : Env) (s : AppState) :
    ((stop_listening s).recognizer = none ∧
     (stop_listening s).listening_timeout = none ∧
     (stop_listening s).is_listening = false) ∧
    (∀ cmd : List Char,
      (execute_command env s cmd).1.is_listening = s.is_listening) ∧
    (∀ (p : List Nat) (a : Action),
      (send_ir_code env s p a).is_listening = s.is_listening) ∧
    (∀ m, (show_status s m).is_listening = s.is_listening) ∧
    (∀ m, (show_success s m).is_listening = s.is_listening) ∧
    (∀ m, (show_error s m).is_listening = s.is_listening) ∧
    ((animate_progress s).is_listening = s.is_listening) ∧
    (∀ code : Nat, (onError s code).is_listening = s.is_listening) ∧
    (∀ m, (handle_recognition_error s m).is_listening = s.is_listening) ∧
    ((listening_timeout_callback s).is_listening = false) ∧
    (∀ r, (process_speech env s r).is_listening = true →
      s.is_listening = true) ∧
    (∀ r, (onResults env s r).is_listening = true →
      s.is_listening = true) ∧
    ((toggle_listening env s).is_listening = true →
      toggle_listening env s = start_listening env s) := by
  refine ⟨⟨rfl, rfl, rfl⟩, execute_command_is_listening env s,
    send_ir_code_is_listening env s, fun m => rfl, fun m => rfl,
    fun m => rfl, ?_, fun code => rfl, fun m => rfl, rfl, ?_, ?_, ?_⟩
  · unfold animate_progress
    split
    all_goals rfl
  · exact fun r h => process_speech_try_is_listening env s r h
  · intro r h
    unfold onResults at h
    split at h
    · exact h
    · exact process_speech_try_is_listening env s r h
  · intro h
    unfold toggle_listening at h ⊢
    split at h
    · simp [stop_listening] at h
    · rename_i hneg
      rw [if_neg hneg]

/-- Witness for C7: stopping after starting clears the session state, a
processed transcript does not set the listening flag, and toggling from
the initial state goes through start_listening. -/
theorem session_lifecycle_start_stop_witness :
    ((stop_listening (start_listening envGood initState)).recognizer =
       none ∧
     (stop_listening (start_listening envGood initState)).listening_timeout
       = none ∧
     (stop_listening (start_listening envGood initState)).is_listening =
       false) ∧
    ((start_listening envGood initState).is_listening = true) ∧
    (toggle_listening envGood initState = start_listening envGood initState)
    :=
  ⟨(session_lifecycle_start_stop envGood
      (start_listening envGood initState)).1,
   (session_lifecycle_start_stop envGood
      (start_listening envGood initState)).2.2.2.2.2.2.2.2.2.2.1
      (some ["turn on".data]) (by decide),
   (session_lifecycle_start_stop envGood initState).2.2.2.2.2.2.2.2.2.2.2.2
      (by decide)⟩

/-- C10: current_color is always a key of COLOR_MAP: it holds in the
initial state (white), the only assignment is guarded by the successful
lookup inside execute_command, and every other modelled operation
preserves it. -/
theorem current_color_always_a_key (env : Env) (s : AppState) :
    colorInv initState ∧
    (∀ cmd : List Char, colorInv s → colorInv (execute_command env s cmd).1) ∧
    (∀ r, colorInv s → colorInv (process_speech env s r)) ∧
    (∀ r, colorInv s → colorInv (onResults env s r)) ∧
    (colorInv s → colorInv (stop_listening s)) ∧
    (colorInv s → colorInv (start_listening env s)) ∧
    (colorInv s → colorInv (animate_progress s)) ∧
    (colorInv s → colorInv (toggle_listening env s)) ∧
    (colorInv s → colorInv (listening_timeout_callback s)) ∧
    (∀ code : Nat, colorInv s → colorInv (onError s code)) ∧
    (∀ (p : List Nat) (a : Action),
      colorInv s → colorInv (send_ir_code env s p a)) := by
  refine ⟨by unfold colorInv; decide, execute_command_colorInv env s, ?_,
    ?_, ?_, ?_, ?_, ?_, ?_, ?_, ?_⟩
  · intro r h
    exact colorInv_congr rfl (process_speech_try_colorInv env s r h)
  · intro r h
    unfold onResults
    split
    · exact colorInv_congr rfl h
    · exact colorInv_congr rfl (process_speech_try_colorInv env s r h)
  · exact fun h => colorInv_congr rfl h
  · exact fun h => colorInv_congr (start_listening_current_color env s) h
  · exact fun h => colorInv_congr (animate_progress_current_color s) h
  · intro h
    unfold toggle_listening
    split
    · exact colorInv_congr rfl h
    · exact colorInv_congr (start_listening_current_color env s) h
  · exact fun h => colorInv_congr rfl h
  · exact fun code h => colorInv_congr rfl h
  · exact fun p a h => colorInv_congr (send_ir_code_current_color env s p a) h

/-- Witness for C10: the invariant holds initially and is preserved by a
colour change and by starting a session. -/
theorem current_color_always_a_key_witness :
    colorInv initState ∧
    colorInv (execute_command envGood initState "change to blue".data).1 ∧
    colorInv (start_listening envGood initState) :=
  ⟨(current_color_always_a_key envGood initState).1,
   (current_color_always_a_key envGood initState).2.1 "change to blue".data
     (by unfold colorInv; decide),
   (current_color_always_a_key envGood initState).2.2.2.2.2.1
     (by unfold colorInv; decide)⟩

end RGBLight
